import Mathlib

/-!
Shallow embedding of the nova-spark metrics pipeline.

Source files embedded here:
* `src/dist/collectors/CpuCollector.js` — the CPU collector (start / stop /
  collect lifecycle, delta sampling over a configured window).
* `src/dist/streaming/MetricsStream.js` — the buffering stream (push / flush /
  clear over an internal array, emitting `data` events).

Modelling conventions:
* JS numbers are modelled as `ℚ`; timestamps (`Date.now()`) as `ℤ`
  (integer milliseconds); the buffer-size threshold as `ℤ` (the spec calls
  it an integer and allows values ≤ 0).
* `process.cpuUsage()` readings are inputs of the environment: each call
  site of `process.cpuUsage` in `collect` receives the absolute usage of
  the process at that instant as an explicit argument (`u1`, `u2`, `u3`,
  in source order), and `Date.now()` receives `now`.  By construction
  `now` is the reading taken after the `setTimeout` delay, and `u2` is
  the absolute usage at the end of the measurement window.
  `process.cpuUsage(prev)` returns the componentwise difference between
  the current absolute usage and `prev`.
* A thrown `Error` is an `Except.error` carrying the message; a method
  that can throw returns the (possibly unchanged) object state next to
  the `Except`, since in JS the object survives the throw.
* For `MetricsStream` the JS heap is made explicit, because the spec
  demands that the emitted snapshot not alias the internal buffer:
  `heap` is the store of array objects (indices are object references),
  `bufPtr` is the reference held in `this.buffer`, and `events` records,
  in order, the references passed to `data` listeners by `emit`.
  `this.buffer.push(...)` and `this.buffer.length = 0` mutate the cell at
  `bufPtr` in place; `[...this.buffer]` allocates a fresh cell.
-/

namespace NovaSpark

/-- A `process.cpuUsage()` reading: user and system CPU time in
microseconds. -/
structure CpuUsage where
  user : ℚ
  system : ℚ
deriving DecidableEq, Repr

/-- `process.cpuUsage(prev)` semantics: current reading minus `prev`,
componentwise. -/
def CpuUsage.sub (a b : CpuUsage) : CpuUsage :=
  { user := a.user - b.user, system := a.system - b.system }

/-- A scalar metadata value: JS strings and numbers. -/
inductive Scalar where
  | str : String → Scalar
  | num : ℚ → Scalar
deriving DecidableEq, Repr

/-- The Metric record shape (`{ name, value, timestamp, type, metadata }`).
`metadata` is the object literal, as an ordered key/value list. -/
structure Metric where
  name : String
  value : ℚ
  timestamp : ℤ
  type : String
  metadata : List (String × Scalar)
deriving DecidableEq, Repr

/-- The two configuration fields this core consumes
(`cpuProfilingDuration` in ms, `metricsBufferSize` the flush threshold). -/
structure Config where
  cpuProfilingDuration : ℚ
  metricsBufferSize : ℤ
deriving DecidableEq, Repr

/-- State of a `CpuCollector`: the stored config, the `isRunning` flag and
the `lastUsage` baseline (`null` ↦ `none`). -/
structure CpuCollector where
  config : Config
  isRunning : Bool
  lastUsage : Option CpuUsage
deriving DecidableEq, Repr

/-- `new CpuCollector(config)`: not running, no baseline. -/
def mkCpuCollector (config : Config) : CpuCollector :=
  { config := config, isRunning := false, lastUsage := none }

/-- `start()`.  `u` is the absolute `process.cpuUsage()` reading at the
call.  If already running, returns immediately. -/
def CpuCollector.start (c : CpuCollector) (u : CpuUsage) : CpuCollector :=
  if c.isRunning then c
  else { c with lastUsage := some u, isRunning := true }

/-- `stop()`.  If not running, returns immediately; otherwise clears the
baseline and the running flag. -/
def CpuCollector.stop (c : CpuCollector) : CpuCollector :=
  if !c.isRunning then c
  else { c with lastUsage := none, isRunning := false }

/-- The error message thrown by `collect()` on a stopped collector. -/
def collectError : String :=
  "Collector must be started before collecting metrics"

/-- `collect()`.  Environment inputs, in source order: `u1` is the absolute
usage at `process.cpuUsage(this.lastUsage || undefined)`, `u2` the absolute
usage at `process.cpuUsage(startUsage)` (window end, after the delay),
`now` the `Date.now()` reading taken after the delay, and `u3` the absolute
usage at the final `process.cpuUsage()`.  Returns the updated collector
state and either the metric batch or the thrown error. -/
def CpuCollector.collect (c : CpuCollector) (u1 u2 u3 : CpuUsage) (now : ℤ) :
    CpuCollector × Except String (List Metric) :=
  if !c.isRunning then
    (c, .error collectError)
  else
    let startUsage := u1.sub (c.lastUsage.getD { user := 0, system := 0 })
    let endUsage := u2.sub startUsage
    let timestamp := now
    let c' := { c with lastUsage := some u3 }
    let totalTime := c.config.cpuProfilingDuration * 1000
    let userPercent := endUsage.user / totalTime * 100
    let systemPercent := endUsage.system / totalTime * 100
    (c', .ok
      [ { name := "cpu.user", value := userPercent, timestamp := timestamp,
          type := "cpu",
          metadata := [("unit", .str "percent"), ("raw", .num endUsage.user),
                       ("duration", .num c.config.cpuProfilingDuration)] },
        { name := "cpu.system", value := systemPercent, timestamp := timestamp,
          type := "cpu",
          metadata := [("unit", .str "percent"), ("raw", .num endUsage.system),
                       ("duration", .num c.config.cpuProfilingDuration)] } ])

/-- The delta `collect()` actually measures for the window (the value of
`endUsage` in the source): `u2 - (u1 - baseline)`, where `baseline` is the
stored `lastUsage` (zero when absent). -/
def windowDelta (c : CpuCollector) (u1 u2 : CpuUsage) : CpuUsage :=
  u2.sub (u1.sub (c.lastUsage.getD { user := 0, system := 0 }))

/-- State of a `MetricsStream`, with the JS heap of array objects made
explicit.  `heap` maps an object reference (a `Nat` index) to the array's
contents; `bufPtr` is the reference stored in `this.buffer`; `events`
records the references handed to `data` listeners by `emit`, in emission
order.  The `EventEmitter` machinery itself (listener registry, its
synchronous dispatch loop) is not modelled beyond this log: a `data`
emission and the argument object it delivers are exactly one `events`
entry. -/
structure MetricsStream where
  config : Config
  heap : List (List Metric)
  bufPtr : Nat
  events : List Nat
deriving DecidableEq, Repr

/-- `new MetricsStream(config)`: `this.buffer = []` allocates one empty
array object; no events have fired. -/
def mkMetricsStream (config : Config) : MetricsStream :=
  { config := config, heap := [[]], bufPtr := 0, events := [] }

/-- The current contents of the array object `this.buffer` points at. -/
def MetricsStream.buffer (s : MetricsStream) : List Metric :=
  s.heap.getD s.bufPtr []

/-- Mutate the array object `this.buffer` points at, in place. -/
def MetricsStream.setBuffer (s : MetricsStream) (l : List Metric) :
    MetricsStream :=
  { s with heap := s.heap.set s.bufPtr l }

/-- `flush()`: if the buffer is non-empty, `[...this.buffer]` allocates a
fresh array object (reference `s.heap.length`) holding a copy of the
buffer contents, `emit('data', ...)` delivers that reference, and then
`this.buffer.length = 0` truncates the buffer object in place.  Otherwise
nothing happens. -/
def MetricsStream.flush (s : MetricsStream) : MetricsStream :=
  if 0 < s.buffer.length then
    let snapshotPtr := s.heap.length
    let emitted : MetricsStream :=
      { s with heap := s.heap ++ [s.buffer], events := s.events ++ [snapshotPtr] }
    emitted.setBuffer []
  else s

/-- `push(metrics)`: `this.buffer.push(...metrics)` appends in place, then
if the buffer length has reached `config.metricsBufferSize`, `flush()`
runs synchronously. -/
def MetricsStream.push (s : MetricsStream) (metrics : List Metric) :
    MetricsStream :=
  let appended := s.setBuffer (s.buffer ++ metrics)
  if s.config.metricsBufferSize ≤ (appended.buffer.length : ℤ) then
    appended.flush
  else appended

/-- `clear()`: `this.buffer.length = 0`, no emission. -/
def MetricsStream.clear (s : MetricsStream) : MetricsStream :=
  s.setBuffer []

/-- One externally invokable operation on a `MetricsStream`. -/
inductive StreamOp where
  | push : List Metric → StreamOp
  | flush : StreamOp
  | clear : StreamOp

/-- Apply one operation. -/
def MetricsStream.applyOp (s : MetricsStream) : StreamOp → MetricsStream
  | .push ms => s.push ms
  | .flush => s.flush
  | .clear => s.clear

/-- Run a sequence of operations left to right. -/
def MetricsStream.run (s : MetricsStream) (ops : List StreamOp) : MetricsStream :=
  ops.foldl MetricsStream.applyOp s

/-- Well-formedness of the heap model: `this.buffer` points at a live
object, and every reference already delivered to listeners is live and is
a different object from the buffer.  Holds for every reachable state. -/
def MetricsStream.WF (s : MetricsStream) : Prop :=
  s.bufPtr < s.heap.length ∧
    ∀ p ∈ s.events, p < s.heap.length ∧ p ≠ s.bufPtr

instance (s : MetricsStream) : Decidable s.WF :=
  inferInstanceAs (Decidable (s.bufPtr < s.heap.length ∧
    ∀ p ∈ s.events, p < s.heap.length ∧ p ≠ s.bufPtr))

/-! Concrete sample data, used by the witness theorems below. -/

/-- A configuration with a 100 ms window and threshold 5. -/
def cfgDur100 : Config := { cpuProfilingDuration := 100, metricsBufferSize := 5 }

/-- A configuration with flush threshold 1. -/
def cfgT1 : Config := { cpuProfilingDuration := 100, metricsBufferSize := 1 }

/-- A configuration with flush threshold 2. -/
def cfgT2 : Config := { cpuProfilingDuration := 100, metricsBufferSize := 2 }

/-- A configuration with flush threshold 3. -/
def cfgT3 : Config := { cpuProfilingDuration := 100, metricsBufferSize := 3 }

/-- A configuration with flush threshold 10. -/
def cfgT10 : Config := { cpuProfilingDuration := 100, metricsBufferSize := 10 }

/-- A sample metric. -/
def mA : Metric :=
  { name := "a", value := 1, timestamp := 0, type := "t", metadata := [] }

/-- Another sample metric. -/
def mB : Metric :=
  { name := "b", value := 2, timestamp := 0, type := "t", metadata := [] }

/-- A running collector whose stored baseline is 1000 µs user / 500 µs
system (the absolute usage when it was started). -/
def cRunning : CpuCollector :=
  { config := cfgDur100, isRunning := true,
    lastUsage := some { user := 1000, system := 500 } }

/-- Absolute usage at the start of the sample window. -/
def uStart : CpuUsage := { user := 1500, system := 700 }

/-- Absolute usage at the end of the sample window. -/
def uEnd : CpuUsage := { user := 1700, system := 800 }

/-- Absolute usage at the post-window baseline resample. -/
def uNext : CpuUsage := { user := 1800, system := 900 }

/-- A stream (threshold 10) holding one buffered metric, nothing emitted. -/
def sOne : MetricsStream := (mkMetricsStream cfgT10).push [mA]

/-- A stream (threshold 1) that has flushed once: the snapshot object has
reference 1 and was delivered to listeners. -/
def sFlushed : MetricsStream := (mkMetricsStream cfgT1).push [mA]

/-! Helper lemmas about the heap model. -/

@[simp]
theorem setBuffer_config (s : MetricsStream) (l : List Metric) :
    (s.setBuffer l).config = s.config := rfl

@[simp]
theorem setBuffer_bufPtr (s : MetricsStream) (l : List Metric) :
    (s.setBuffer l).bufPtr = s.bufPtr := rfl

@[simp]
theorem setBuffer_events (s : MetricsStream) (l : List Metric) :
    (s.setBuffer l).events = s.events := rfl

@[simp]
theorem setBuffer_heap_length (s : MetricsStream) (l : List Metric) :
    (s.setBuffer l).heap.length = s.heap.length := by
  simp [MetricsStream.setBuffer]

theorem setBuffer_buffer (s : MetricsStream) (l : List Metric)
    (h : s.bufPtr < s.heap.length) : (s.setBuffer l).buffer = l := by
  simp [MetricsStream.setBuffer, MetricsStream.buffer, List.getD_eq_getElem?_getD,
    List.getElem?_set_self h]

theorem setBuffer_lookup (s : MetricsStream) (l : List Metric) (p : Nat)
    (h : p ≠ s.bufPtr) :
    (s.setBuffer l).heap.getD p [] = s.heap.getD p [] := by
  simp [MetricsStream.setBuffer, List.getD_eq_getElem?_getD,
    List.getElem?_set_ne (Ne.symm h)]

theorem flush_of_empty (s : MetricsStream) (h : s.buffer = []) : s.flush = s := by
  simp [MetricsStream.flush, h]

theorem flush_of_ne (s : MetricsStream) (h : s.buffer ≠ []) :
    s.flush = { s with heap := (s.heap ++ [s.buffer]).set s.bufPtr [],
                       events := s.events ++ [s.heap.length] } := by
  rw [MetricsStream.flush, if_pos (List.length_pos.mpr h)]
  rfl

@[simp]
theorem flush_config (s : MetricsStream) : s.flush.config = s.config := by
  by_cases h : s.buffer = []
  · rw [flush_of_empty s h]
  · rw [flush_of_ne s h]

@[simp]
theorem flush_bufPtr (s : MetricsStream) : s.flush.bufPtr = s.bufPtr := by
  by_cases h : s.buffer = []
  · rw [flush_of_empty s h]
  · rw [flush_of_ne s h]

theorem flush_buffer (s : MetricsStream) (hWF : s.WF) (h : s.buffer ≠ []) :
    s.flush.buffer = [] := by
  rw [flush_of_ne s h]
  show ((s.heap ++ [s.buffer]).set s.bufPtr []).getD s.bufPtr [] = []
  have hlt : s.bufPtr < (s.heap ++ [s.buffer]).length := by
    have hb := hWF.1
    simp
    omega
  simp [List.getD_eq_getElem?_getD, List.getElem?_set_self hlt]

theorem flush_events (s : MetricsStream) (h : s.buffer ≠ []) :
    s.flush.events = s.events ++ [s.heap.length] := by
  rw [flush_of_ne s h]

theorem flush_snapshot (s : MetricsStream) (hWF : s.WF) (h : s.buffer ≠ []) :
    s.flush.heap.getD s.heap.length [] = s.buffer := by
  rw [flush_of_ne s h]
  show ((s.heap ++ [s.buffer]).set s.bufPtr []).getD s.heap.length [] = s.buffer
  rw [List.getD_eq_getElem?_getD, List.getElem?_set_ne (Nat.ne_of_lt hWF.1),
    List.getElem?_concat_length]
  rfl

theorem flush_heap_le (s : MetricsStream) :
    s.heap.length ≤ s.flush.heap.length := by
  by_cases h : s.buffer = []
  · rw [flush_of_empty s h]
  · rw [flush_of_ne s h]
    simp [Nat.le_succ]

theorem flush_lookup (s : MetricsStream) (p : Nat) (hlen : p < s.heap.length)
    (hb : p ≠ s.bufPtr) : s.flush.heap.getD p [] = s.heap.getD p [] := by
  by_cases h : s.buffer = []
  · rw [flush_of_empty s h]
  · rw [flush_of_ne s h]
    show ((s.heap ++ [s.buffer]).set s.bufPtr []).getD p [] = s.heap.getD p []
    rw [List.getD_eq_getElem?_getD, List.getElem?_set_ne (Ne.symm hb),
      List.getElem?_append_left hlen, List.getD_eq_getElem?_getD]

theorem push_eq (s : MetricsStream) (ms : List Metric)
    (h : s.bufPtr < s.heap.length) :
    s.push ms =
      if s.config.metricsBufferSize ≤ ((s.buffer ++ ms).length : ℤ) then
        (s.setBuffer (s.buffer ++ ms)).flush
      else s.setBuffer (s.buffer ++ ms) := by
  rw [MetricsStream.push]
  simp only [setBuffer_config, setBuffer_buffer s _ h]

theorem WF_mk (cfg : Config) : (mkMetricsStream cfg).WF := by
  refine ⟨by simp [mkMetricsStream], fun p hp => ?_⟩
  simp [mkMetricsStream] at hp

theorem WF_setBuffer (s : MetricsStream) (l : List Metric) (hWF : s.WF) :
    (s.setBuffer l).WF := by
  refine ⟨by simpa using hWF.1, fun p hp => ?_⟩
  have := hWF.2 p (by simpa using hp)
  simpa using this

theorem WF_flush (s : MetricsStream) (hWF : s.WF) : s.flush.WF := by
  by_cases h : s.buffer = []
  · rw [flush_of_empty s h]; exact hWF
  · rw [flush_of_ne s h]
    have hb := hWF.1
    refine ⟨by simp; omega, fun p hp => ?_⟩
    simp only [List.mem_append, List.mem_singleton] at hp
    rcases hp with hp | hp
    · obtain ⟨h1, h2⟩ := hWF.2 p hp
      exact ⟨by simp; omega, h2⟩
    · subst hp
      exact ⟨by simp, by show s.heap.length ≠ s.bufPtr; omega⟩

theorem WF_push (s : MetricsStream) (ms : List Metric) (hWF : s.WF) :
    (s.push ms).WF := by
  rw [push_eq s ms hWF.1]
  split
  · exact WF_flush _ (WF_setBuffer s _ hWF)
  · exact WF_setBuffer s _ hWF

theorem WF_clear (s : MetricsStream) (hWF : s.WF) : s.clear.WF :=
  WF_setBuffer s [] hWF

theorem WF_applyOp (s : MetricsStream) (op : StreamOp) (hWF : s.WF) :
    (s.applyOp op).WF := by
  cases op with
  | push ms => exact WF_push s ms hWF
  | flush => exact WF_flush s hWF
  | clear => exact WF_clear s hWF

theorem push_bufPtr (s : MetricsStream) (ms : List Metric) (hWF : s.WF) :
    (s.push ms).bufPtr = s.bufPtr := by
  rw [push_eq s ms hWF.1]
  split <;> simp

theorem push_heap_le (s : MetricsStream) (ms : List Metric) (hWF : s.WF) :
    s.heap.length ≤ (s.push ms).heap.length := by
  rw [push_eq s ms hWF.1]
  split
  · have := flush_heap_le (s.setBuffer (s.buffer ++ ms))
    simpa using this
  · simp

theorem push_lookup (s : MetricsStream) (ms : List Metric) (p : Nat)
    (hWF : s.WF) (hlen : p < s.heap.length) (hb : p ≠ s.bufPtr) :
    (s.push ms).heap.getD p [] = s.heap.getD p [] := by
  rw [push_eq s ms hWF.1]
  split
  · rw [flush_lookup _ p (by simpa using hlen) (by simpa using hb)]
    exact setBuffer_lookup s _ p hb
  · exact setBuffer_lookup s _ p hb

theorem applyOp_bufPtr (s : MetricsStream) (op : StreamOp) (hWF : s.WF) :
    (s.applyOp op).bufPtr = s.bufPtr := by
  cases op with
  | push ms => exact push_bufPtr s ms hWF
  | flush => exact flush_bufPtr s
  | clear => rfl

theorem applyOp_heap_le (s : MetricsStream) (op : StreamOp) (hWF : s.WF) :
    s.heap.length ≤ (s.applyOp op).heap.length := by
  cases op with
  | push ms => exact push_heap_le s ms hWF
  | flush => exact flush_heap_le s
  | clear => exact Nat.le_of_eq (setBuffer_heap_length s []).symm

theorem applyOp_lookup (s : MetricsStream) (op : StreamOp) (p : Nat)
    (hWF : s.WF) (hlen : p < s.heap.length) (hb : p ≠ s.bufPtr) :
    (s.applyOp op).heap.getD p [] = s.heap.getD p [] := by
  cases op with
  | push ms => exact push_lookup s ms p hWF hlen hb
  | flush => exact flush_lookup s p hlen hb
  | clear => exact setBuffer_lookup s [] p hb

theorem run_lookup (p : Nat) (ops : List StreamOp) :
    ∀ s : MetricsStream, s.WF → p < s.heap.length → p ≠ s.bufPtr →
      (s.run ops).heap.getD p [] = s.heap.getD p [] := by
  induction ops with
  | nil => intro s _ _ _; rfl
  | cons op rest ih =>
    intro s hWF hlen hb
    have hstep : s.run (op :: rest) = (s.applyOp op).run rest := rfl
    rw [hstep, ih (s.applyOp op) (WF_applyOp s op hWF)
      (Nat.lt_of_lt_of_le hlen (applyOp_heap_le s op hWF))
      (by rw [applyOp_bufPtr s op hWF]; exact hb)]
    exact applyOp_lookup s op p hWF hlen hb

theorem push_config (s : MetricsStream) (ms : List Metric) (hWF : s.WF) :
    (s.push ms).config = s.config := by
  rw [push_eq s ms hWF.1]
  split <;> simp

theorem applyOp_config (s : MetricsStream) (op : StreamOp) (hWF : s.WF) :
    (s.applyOp op).config = s.config := by
  cases op with
  | push ms => exact push_config s ms hWF
  | flush => exact flush_config s
  | clear => rfl

theorem applyOp_buffer_lt (s : MetricsStream) (op : StreamOp) (hWF : s.WF)
    (h1 : 1 ≤ s.config.metricsBufferSize)
    (hlt : (s.buffer.length : ℤ) < s.config.metricsBufferSize) :
    ((s.applyOp op).buffer.length : ℤ) < s.config.metricsBufferSize := by
  cases op with
  | push ms =>
    show ((s.push ms).buffer.length : ℤ) < s.config.metricsBufferSize
    rw [push_eq s ms hWF.1]
    split
    · by_cases happ : (s.setBuffer (s.buffer ++ ms)).buffer = []
      · rw [flush_of_empty _ happ, happ]
        simpa using h1
      · rw [flush_buffer _ (WF_setBuffer s _ hWF) happ]
        simpa using h1
    · rw [setBuffer_buffer s _ hWF.1]
      omega
  | flush =>
    show (s.flush.buffer.length : ℤ) < s.config.metricsBufferSize
    by_cases h : s.buffer = []
    · rw [flush_of_empty s h]
      exact hlt
    · rw [flush_buffer s hWF h]
      simpa using h1
  | clear =>
    show (s.clear.buffer.length : ℤ) < s.config.metricsBufferSize
    rw [MetricsStream.clear, setBuffer_buffer s _ hWF.1]
    simpa using h1

theorem run_buffer_lt (ops : List StreamOp) :
    ∀ s : MetricsStream, s.WF → 1 ≤ s.config.metricsBufferSize →
      (s.buffer.length : ℤ) < s.config.metricsBufferSize →
      ((s.run ops).buffer.length : ℤ) < s.config.metricsBufferSize := by
  induction ops with
  | nil => intro s _ _ hlt; exact hlt
  | cons op rest ih =>
    intro s hWF h1 hlt
    have hcfg := applyOp_config s op hWF
    have hrest := ih (s.applyOp op) (WF_applyOp s op hWF)
      (by rw [hcfg]; exact h1)
      (by rw [hcfg]; exact applyOp_buffer_lt s op hWF h1 hlt)
    rw [hcfg] at hrest
    exact hrest

/-! Claim theorems. -/

/-- C1 (code bug evidence): at a concrete running collector whose stored
baseline is 1000 µs user / 500 µs system, with absolute usage 1500/700 at
window start and 1700/800 at window end, `collect()` reports
`metadata.raw` = 1200 µs user and 600 µs system, whereas the usage
incurred during the window (absolute end minus absolute start) is
200 µs user and 100 µs system.  The source computes
`endUsage = process.cpuUsage(startUsage)` where `startUsage` is itself a
relative reading, so the reported delta re-includes the usage accumulated
before the window (here, the whole 1000/500 baseline). -/
theorem collect_raw_includes_prior_baseline :
    ((cRunning.collect uStart uEnd uNext 7).2).map
        (fun ms => ms.map fun m => m.metadata) =
      .ok [[("unit", Scalar.str "percent"), ("raw", Scalar.num 1200),
            ("duration", Scalar.num 100)],
           [("unit", Scalar.str "percent"), ("raw", Scalar.num 600),
            ("duration", Scalar.num 100)]] ∧
    uEnd.user - uStart.user = 200 ∧ (1200 : ℚ) ≠ 200 ∧
    uEnd.system - uStart.system = 100 ∧ (600 : ℚ) ≠ 100 := by
  refine ⟨?_, ?_, ?_, ?_, ?_⟩
  · norm_num [cRunning, uStart, uEnd, uNext, cfgDur100, CpuCollector.collect,
      CpuUsage.sub, Except.map]
  · norm_num [uStart, uEnd]
  · norm_num
  · norm_num [uStart, uEnd]
  · norm_num

/-- C2: on a running collector, the emitted `cpu.user` value is
`(U / (D * 1000)) * 100` and the `cpu.system` value is
`(S / (D * 1000)) * 100`, where `U`/`S` are the user/system components of
the delta the call measures for the window (`endUsage` in the source,
`windowDelta` here) and `D` is the configured window duration in ms. -/
theorem collect_percentages (c : CpuCollector) (u1 u2 u3 : CpuUsage)
    (now : ℤ) (h : c.isRunning = true) :
    ((c.collect u1 u2 u3 now).2).map
        (fun ms => ms.map fun m => (m.name, m.value)) =
      .ok [("cpu.user",
              (windowDelta c u1 u2).user /
                (c.config.cpuProfilingDuration * 1000) * 100),
           ("cpu.system",
              (windowDelta c u1 u2).system /
                (c.config.cpuProfilingDuration * 1000) * 100)] := by
  simp [CpuCollector.collect, windowDelta, h, Except.map]

/-- C2 witness: the theorem applied to a concrete running collector. -/
theorem collect_percentages_witness :
    ((cRunning.collect uStart uEnd uNext 7).2).map
        (fun ms => ms.map fun m => (m.name, m.value)) =
      .ok [("cpu.user",
              (windowDelta cRunning uStart uEnd).user /
                (cRunning.config.cpuProfilingDuration * 1000) * 100),
           ("cpu.system",
              (windowDelta cRunning uStart uEnd).system /
                (cRunning.config.cpuProfilingDuration * 1000) * 100)] :=
  collect_percentages cRunning uStart uEnd uNext 7 rfl

/-- C3: `collect()` on a collector whose running flag is false returns the
invalid-state error, produces no metrics, and returns the collector state
unchanged (the throw happens before any mutation). -/
theorem collect_not_running (c : CpuCollector) (h : c.isRunning = false)
    (u1 u2 u3 : CpuUsage) (now : ℤ) :
    c.collect u1 u2 u3 now = (c, .error collectError) := by
  simp [CpuCollector.collect, h]

/-- C3 witness: a freshly constructed collector. -/
theorem collect_not_running_witness :
    (mkCpuCollector cfgDur100).collect uStart uEnd uNext 3 =
      (mkCpuCollector cfgDur100, .error collectError) :=
  collect_not_running (mkCpuCollector cfgDur100) rfl uStart uEnd uNext 3

/-- C7: `start()` twice (with possibly different usage readings at the two
calls) leaves the same state as `start()` once — the second call returns
immediately and the first baseline is retained — and `stop()` twice leaves
the same state as `stop()` once. -/
theorem lifecycle_idempotent (c : CpuCollector) (u1 u2 : CpuUsage) :
    (c.start u1).start u2 = c.start u1 ∧ c.stop.stop = c.stop := by
  cases hc : c.isRunning <;>
    simp [CpuCollector.start, CpuCollector.stop, hc]

/-- C8: each metric of a successful `collect()` has `type = "cpu"`, value
equal to the computed percentage for its category, timestamp equal to the
`Date.now()` reading taken after the sampling delay (`now` here, a single
completion-time reading), and metadata `{ unit: "percent", raw: <measured
delta for the category>, duration: <configured window duration> }`. -/
theorem collect_metric_fields (c : CpuCollector) (u1 u2 u3 : CpuUsage)
    (now : ℤ) (h : c.isRunning = true) :
    ((c.collect u1 u2 u3 now).2).map
        (fun ms => ms.map fun m => (m.type, m.value, m.timestamp, m.metadata)) =
      .ok [("cpu",
              (windowDelta c u1 u2).user /
                (c.config.cpuProfilingDuration * 1000) * 100,
              now,
              [("unit", Scalar.str "percent"),
               ("raw", Scalar.num (windowDelta c u1 u2).user),
               ("duration", Scalar.num c.config.cpuProfilingDuration)]),
            ("cpu",
              (windowDelta c u1 u2).system /
                (c.config.cpuProfilingDuration * 1000) * 100,
              now,
              [("unit", Scalar.str "percent"),
               ("raw", Scalar.num (windowDelta c u1 u2).system),
               ("duration", Scalar.num c.config.cpuProfilingDuration)])] := by
  simp [CpuCollector.collect, windowDelta, h, Except.map]

/-- C8 witness: the theorem applied to a concrete running collector. -/
theorem collect_metric_fields_witness :
    ((cRunning.collect uStart uEnd uNext 7).2).map
        (fun ms => ms.map fun m => (m.type, m.value, m.timestamp, m.metadata)) =
      .ok [("cpu",
              (windowDelta cRunning uStart uEnd).user /
                (cRunning.config.cpuProfilingDuration * 1000) * 100,
              7,
              [("unit", Scalar.str "percent"),
               ("raw", Scalar.num (windowDelta cRunning uStart uEnd).user),
               ("duration", Scalar.num cRunning.config.cpuProfilingDuration)]),
            ("cpu",
              (windowDelta cRunning uStart uEnd).system /
                (cRunning.config.cpuProfilingDuration * 1000) * 100,
              7,
              [("unit", Scalar.str "percent"),
               ("raw", Scalar.num (windowDelta cRunning uStart uEnd).system),
               ("duration", Scalar.num cRunning.config.cpuProfilingDuration)])] :=
  collect_metric_fields cRunning uStart uEnd uNext 7 rfl

/-- C10: a successful `collect()` returns exactly two metrics, the first
named `cpu.user` and the second `cpu.system`, both carrying the single
completion-time timestamp. -/
theorem collect_two_metrics (c : CpuCollector) (u1 u2 u3 : CpuUsage)
    (now : ℤ) (h : c.isRunning = true) :
    ((c.collect u1 u2 u3 now).2).map
        (fun ms => (ms.length, ms.map Metric.name, ms.map Metric.timestamp)) =
      .ok (2, ["cpu.user", "cpu.system"], [now, now]) := by
  simp [CpuCollector.collect, h, Except.map]

/-- C10 witness: the theorem applied to a concrete running collector. -/
theorem collect_two_metrics_witness :
    ((cRunning.collect uStart uEnd uNext 7).2).map
        (fun ms => (ms.length, ms.map Metric.name, ms.map Metric.timestamp)) =
      .ok (2, ["cpu.user", "cpu.system"], [7, 7]) :=
  collect_two_metrics cRunning uStart uEnd uNext 7 rfl

/-- C4: `push` appends all given metrics to the buffer in order; if the
resulting length stays below the threshold, no notification fires and the
buffer holds the appended contents; if the resulting length reaches the
threshold (and something is buffered), exactly one `data` notification
fires synchronously, carrying all buffered metrics in order, and the
buffer is empty afterwards; a threshold ≤ 1 (which covers ≤ 0) flushes
after every push that adds at least one item. -/
theorem push_threshold_spec (s : MetricsStream) (hWF : s.WF)
    (ms : List Metric) :
    (((s.buffer ++ ms).length : ℤ) < s.config.metricsBufferSize →
        (s.push ms).buffer = s.buffer ++ ms ∧ (s.push ms).events = s.events) ∧
    (s.config.metricsBufferSize ≤ ((s.buffer ++ ms).length : ℤ) →
      s.buffer ++ ms ≠ [] →
        (s.push ms).buffer = [] ∧
        (s.push ms).events = s.events ++ [s.heap.length] ∧
        (s.push ms).heap.getD s.heap.length [] = s.buffer ++ ms) ∧
    (s.config.metricsBufferSize ≤ 1 → ms ≠ [] →
        (s.push ms).buffer = [] ∧
        (s.push ms).events = s.events ++ [s.heap.length]) := by
  have happ := setBuffer_buffer s (s.buffer ++ ms) hWF.1
  have hWF' := WF_setBuffer s (s.buffer ++ ms) hWF
  have hB : s.config.metricsBufferSize ≤ ((s.buffer ++ ms).length : ℤ) →
      s.buffer ++ ms ≠ [] →
        (s.push ms).buffer = [] ∧
        (s.push ms).events = s.events ++ [s.heap.length] ∧
        (s.push ms).heap.getD s.heap.length [] = s.buffer ++ ms := by
    intro hge hne
    have hne' : (s.setBuffer (s.buffer ++ ms)).buffer ≠ [] := by
      rw [happ]; exact hne
    rw [push_eq s ms hWF.1, if_pos hge]
    refine ⟨flush_buffer _ hWF' hne', ?_, ?_⟩
    · rw [flush_events _ hne']
      simp
    · have hsnap := flush_snapshot _ hWF' hne'
      rw [setBuffer_heap_length, happ] at hsnap
      exact hsnap
  refine ⟨?_, hB, ?_⟩
  · intro hlt
    rw [push_eq s ms hWF.1, if_neg (by omega)]
    exact ⟨happ, rfl⟩
  · intro hT hms
    have hne : s.buffer ++ ms ≠ [] := fun hc => hms (List.append_eq_nil.mp hc).2
    have hpos := List.length_pos.mpr hne
    obtain ⟨h1, h2, _⟩ := hB (by omega) hne
    exact ⟨h1, h2⟩

/-- C4 witness: threshold 2, pushing two metrics into an empty buffer
flushes exactly once with both metrics in order and empties the buffer. -/
theorem push_threshold_spec_witness :
    ((mkMetricsStream cfgT2).push [mA, mB]).buffer = [] ∧
    ((mkMetricsStream cfgT2).push [mA, mB]).events =
      (mkMetricsStream cfgT2).events ++ [(mkMetricsStream cfgT2).heap.length] ∧
    ((mkMetricsStream cfgT2).push [mA, mB]).heap.getD
        (mkMetricsStream cfgT2).heap.length [] =
      (mkMetricsStream cfgT2).buffer ++ [mA, mB] :=
  (push_threshold_spec (mkMetricsStream cfgT2) (by decide) [mA, mB]).2.1
    (by decide) (by decide)

/-- C5: `flush()` on a non-empty buffer emits exactly one `data`
notification carrying a fresh snapshot object with the entire buffer
contents in insertion order and empties the buffer; `flush()` on an empty
buffer is a complete no-op (no notification, state unchanged). -/
theorem flush_spec (s : MetricsStream) (hWF : s.WF) :
    (s.buffer ≠ [] →
        s.flush.buffer = [] ∧
        s.flush.events = s.events ++ [s.heap.length] ∧
        s.flush.heap.getD s.heap.length [] = s.buffer) ∧
    (s.buffer = [] → s.flush = s) :=
  ⟨fun h => ⟨flush_buffer s hWF h, flush_events s h, flush_snapshot s hWF h⟩,
   flush_of_empty s⟩

/-- C5 witness: a stream holding one buffered metric. -/
theorem flush_spec_witness :
    sOne.flush.buffer = [] ∧
    sOne.flush.events = sOne.events ++ [sOne.heap.length] ∧
    sOne.flush.heap.getD sOne.heap.length [] = sOne.buffer :=
  (flush_spec sOne (by decide)).1 (by decide)

/-- C6: a snapshot object already delivered to listeners (a reference in
`events`) is never mutated by any later sequence of `push`, `flush` or
`clear` operations: its heap cell keeps exactly the contents it had at
emission time, because `flush` emits a freshly allocated copy and later
operations mutate only the buffer cell. -/
theorem snapshot_isolation (s : MetricsStream) (hWF : s.WF) (p : Nat)
    (hp : p ∈ s.events) (ops : List StreamOp) :
    (s.run ops).heap.getD p [] = s.heap.getD p [] := by
  obtain ⟨hlen, hb⟩ := hWF.2 p hp
  exact run_lookup p ops s hWF hlen hb

/-- C6 witness: after a flush delivered snapshot reference 1, a later push
and clear leave that snapshot's contents unchanged. -/
theorem snapshot_isolation_witness :
    (sFlushed.run [StreamOp.push [mB], StreamOp.clear]).heap.getD 1 [] =
      sFlushed.heap.getD 1 [] :=
  snapshot_isolation sFlushed (by decide) 1 (by decide)
    [StreamOp.push [mB], StreamOp.clear]

/-- C9: for a threshold ≥ 1, after any finite sequence of push/flush/clear
operations on a fresh stream the buffer length is strictly below the
threshold — reaching the threshold inside a `push` immediately flushes the
buffer to empty before `push` returns. -/
theorem buffer_below_threshold (cfg : Config)
    (h1 : 1 ≤ cfg.metricsBufferSize) (ops : List StreamOp) :
    (((mkMetricsStream cfg).run ops).buffer.length : ℤ) <
      cfg.metricsBufferSize := by
  refine run_buffer_lt ops (mkMetricsStream cfg) (WF_mk cfg) h1 ?_
  have hbuf : (mkMetricsStream cfg).buffer = [] := rfl
  rw [hbuf]
  show ((0 : ℕ) : ℤ) < cfg.metricsBufferSize
  omega

/-- C9 witness: threshold 3, two pushes of one metric each. -/
theorem buffer_below_threshold_witness :
    (((mkMetricsStream cfgT3).run
        [StreamOp.push [mA], StreamOp.push [mB]]).buffer.length : ℤ) <
      cfgT3.metricsBufferSize :=
  buffer_below_threshold cfgT3 (by decide)
    [StreamOp.push [mA], StreamOp.push [mB]]

end NovaSpark
